import Mathlib

/-!
Verification of the ChainGuard multi-agent risk-assessment engine.

This file gives a shallow embedding, over exact rationals, of the parts of the
system that the specification's claims are about:

* the risk synthesizer (`multi_agents/agents/risk_synthesizer_agent.py`):
  result extraction, validation, per-category risk components, consensus
  analysis, the weighted final score and the risk tier;
* the orchestrator (`multi_agents/orchestrator/adk_orchestrator.py`):
  the error-assessment constructor, the final-assessment compiler, the
  top-level `assess_protocol_risk` control flow, and the agent context it
  hands to each agent;
* the agent execution wrapper (`multi_agents/agents/base_adk_agent.py`):
  timeout conversion and retry-with-backoff;
* the memory manager (`multi_agents/memory/adk_memory_manager.py`):
  `update_agent_memory` and its bound on historical assessments.

Python floats are modelled as exact rationals; wall-clock timestamps and log
output are elided; dictionaries with a fixed key set are modelled as
structures, and open payload dictionaries as structures of `Option` fields
whose `get(key, default)` accesses become `Option.getD`.  Backoff sleeps are
recorded as a list of delays instead of being performed.  Pydantic model
construction is modelled as a checked constructor over the keyword arguments
actually passed at each call site, returning `Except` like the `raise` it
performs when a required field is absent.
-/

namespace ChainGuard

/-- Rounding of a rational to an integer, ties to even, as Python's `round`
rounds a value that is representable exactly. -/
def roundHalfEven (q : ℚ) : ℤ :=
  let f : ℤ := ⌊q⌋
  let r : ℚ := q - (f : ℚ)
  if r < 1/2 then f
  else if 1/2 < r then f + 1
  else if f % 2 = 0 then f else f + 1

/-- Python's `round(x, n)` on an exact value. -/
def roundTo (digits : ℕ) (q : ℚ) : ℚ :=
  (roundHalfEven (q * 10 ^ digits) : ℚ) / 10 ^ digits

/-- Python's `round(x, 2)`, used on the final risk score. -/
def round2 (q : ℚ) : ℚ := roundTo 2 q

/-- Python's `statistics.mean`. -/
def listMean (l : List ℚ) : ℚ := l.sum / (l.length : ℚ)

/-- Python's `statistics.variance`: the sample variance, with an `n - 1`
denominator.  The source only calls it on lists of length at least 2. -/
def listVariance (l : List ℚ) : ℚ :=
  let m := listMean l
  ((l.map (fun x => (x - m) ^ 2)).sum) / ((l.length : ℚ) - 1)

/-- Largest element of a list of scores (the last element of the sorted list
the source builds); 0 on the empty list, which the source never sorts. -/
def listMax (l : List ℚ) : ℚ := l.foldl max (l.headD 0)

/-- Smallest element of a list of scores (the first element of the sorted
list the source builds); 0 on the empty list. -/
def listMin (l : List ℚ) : ℚ := l.foldl min (l.headD 0)

/-- Lookup in an association list modelling a Python `dict.get(key, default)`. -/
def dictGetD {α : Type} (l : List (String × α)) (k : String) (d : α) : α :=
  match l.find? (fun p => p.1 == k) with
  | some p => p.2
  | none => d

/-- Python `dict.update`: existing keys are overwritten in place, new keys are
appended in iteration order. -/
def dictUpdate {α : Type} (d : List (String × α)) (u : List (String × α)) :
    List (String × α) :=
  u.foldl (fun acc p =>
    if acc.any (fun q => q.1 == p.1) then
      acc.map (fun q => if q.1 == p.1 then p else q)
    else acc ++ [p]) d

/-! ## Payloads of the three analysis agents, as the synthesizer reads them

Only the fields the risk synthesizer accesses are represented; every access
in the source is a `dict.get` with a default, which `Option.getD` mirrors. -/

/-- Payload field `risk_factors` with per-severity lists of findings. -/
structure RiskFactors where
  critical : List String := []
  high : List String := []
  medium : List String := []
deriving DecidableEq

/-- Payload field `governance_analysis` of the protocol analyst: an overall
score and per-component risk lists (`components[name]['risks']`). -/
structure GovernanceAnalysis where
  overall_score : Option ℚ := none
  components : List (String × List String) := []
deriving DecidableEq

/-- Payload of the protocol analyst, as read by the synthesizer. -/
structure AnalystData where
  security_score : Option ℚ := none
  risk_factors : RiskFactors := {}
  security_summary : Option String := none
  governance_analysis : Option GovernanceAnalysis := none
deriving DecidableEq

/-- Payload of the market intelligence agent, as read by the synthesizer. -/
structure MarketData where
  financial_risk_score : Option ℚ := none
  risk_factors : RiskFactors := {}
  market_summary : Option String := none
deriving DecidableEq

/-- One entry of the data hunter's `recommendations['data_gaps']` list. -/
structure DataGap where
  missing_source : Option String := none
  impact : Option String := none
deriving DecidableEq

/-- Payload field `data_validation` of the data hunter. -/
structure DataValidation where
  overall_quality_score : Option ℚ := none
deriving DecidableEq

/-- Payload field `recommendations` of the data hunter. -/
structure Recommendations where
  data_gaps : List DataGap := []
deriving DecidableEq

/-- Payload of the data hunter, as read by the synthesizer. -/
structure HunterData where
  data_validation : Option DataValidation := none
  recommendations : Option Recommendations := none
deriving DecidableEq

/-- One entry of the `agent_results` map built by `_extract_agent_results`:
`{'success': …, 'data': …, 'confidence': …}` (the timestamp field, pure
wall-clock data, is elided). -/
structure AgentEntry (α : Type) where
  success : Bool
  data : α
  confidence : ℚ
deriving DecidableEq

/-- The `agent_results` map over the three expected agent ids. -/
structure AgentResults where
  data_hunter : AgentEntry HunterData
  protocol_analyst : AgentEntry AnalystData
  market_intelligence : AgentEntry MarketData
deriving DecidableEq

/-! ## Risk components -/

/-- One risk-component dictionary built by the `_calculate_*_risk` helpers;
`weight` and `contribution` are filled in afterwards by
`_calculate_risk_components`. -/
structure RiskComponent where
  score : ℚ
  confidence : ℚ
  source : String
  factors : List String := []
  details : String := ""
  weight : ℚ := 0
  contribution : ℚ := 0
deriving DecidableEq

/-- The four risk components keyed `security_risk`, `financial_risk`,
`technical_risk`, `governance_risk` in dictionary insertion order. -/
structure RiskComponents where
  security_risk : RiskComponent
  financial_risk : RiskComponent
  technical_risk : RiskComponent
  governance_risk : RiskComponent
deriving DecidableEq

/-- The component dictionary in its insertion order, as every `for … in
risk_components.items()` loop of the source iterates it. -/
def componentsList (rc : RiskComponents) : List (String × RiskComponent) :=
  [("security_risk", rc.security_risk),
   ("financial_risk", rc.financial_risk),
   ("technical_risk", rc.technical_risk),
   ("governance_risk", rc.governance_risk)]

/-- The fixed category weight table `self.risk_weights` (sums to 1.0). -/
def risk_weights : List (String × ℚ) :=
  [("security_risk", 0.35), ("financial_risk", 0.30),
   ("technical_risk", 0.20), ("governance_risk", 0.15)]

/-- `_calculate_security_risk`: security risk from the protocol analyst,
`100 - security_score`, or the conservative default 75 at confidence 0.2. -/
def calculate_security_risk (ar : AgentResults) : RiskComponent :=
  let pa := ar.protocol_analyst
  if pa.success = false then
    { score := 75, confidence := 0.2, source := "default_conservative",
      factors := ["Missing security analysis"],
      details := "No security analysis available" }
  else
    let analyst_data := pa.data
    let security_score := analyst_data.security_score.getD 75
    let risk_score := 100 - security_score
    let security_factors :=
      analyst_data.risk_factors.critical.take 3 ++
      analyst_data.risk_factors.high.take 2
    { score := risk_score, confidence := pa.confidence,
      source := "protocol_analyst", factors := security_factors,
      details := analyst_data.security_summary.getD "Security analysis completed" }

/-- `_calculate_financial_risk`: financial risk from market intelligence,
taken directly as a risk score, or the moderate default 60 at confidence 0.3. -/
def calculate_financial_risk (ar : AgentResults) : RiskComponent :=
  let mi := ar.market_intelligence
  if mi.success = false then
    { score := 60, confidence := 0.3, source := "default_moderate",
      factors := ["Missing financial analysis"],
      details := "No financial analysis available" }
  else
    let intelligence_data := mi.data
    let financial_score := intelligence_data.financial_risk_score.getD 60
    let financial_factors :=
      intelligence_data.risk_factors.critical.take 2 ++
      intelligence_data.risk_factors.high.take 2
    { score := financial_score, confidence := mi.confidence,
      source := "market_intelligence", factors := financial_factors,
      details := intelligence_data.market_summary.getD "Financial analysis completed" }

/-- `_calculate_technical_risk`: technical risk from the data hunter,
`100 - overall_quality_score`, or the high default 70 at confidence 0.1. -/
def calculate_technical_risk (ar : AgentResults) : RiskComponent :=
  let dh := ar.data_hunter
  if dh.success = false then
    { score := 70, confidence := 0.1, source := "default_high",
      factors := ["Missing data quality assessment"],
      details := "No data quality analysis available" }
  else
    let hunter_data := dh.data
    let data_quality_score :=
      ((hunter_data.data_validation.getD {}).overall_quality_score).getD 50
    let risk_score := 100 - data_quality_score
    let technical_factors :=
      (((hunter_data.recommendations.getD {}).data_gaps).take 3).map
        (fun gap => gap.missing_source.getD "Data source unavailable")
    { score := risk_score, confidence := dh.confidence,
      source := "data_hunter", factors := technical_factors,
      details := "Data quality score: " ++ toString data_quality_score ++ "/100" }

/-- `_calculate_governance_risk`: governance risk from the protocol analyst's
governance analysis, `100 - overall_score`, or the default 65 at
confidence 0.2. -/
def calculate_governance_risk (ar : AgentResults) : RiskComponent :=
  let pa := ar.protocol_analyst
  if pa.success = false then
    { score := 65, confidence := 0.2, source := "default_moderate_high",
      factors := ["Missing governance analysis"],
      details := "No governance analysis available" }
  else
    let governance_analysis := pa.data.governance_analysis.getD {}
    let governance_score := governance_analysis.overall_score.getD 50
    let risk_score := 100 - governance_score
    let governance_factors :=
      ((governance_analysis.components.map (fun c => c.2.take 2)).flatten).take 4
    { score := risk_score, confidence := pa.confidence,
      source := "protocol_analyst_governance", factors := governance_factors,
      details := "Governance score: " ++ toString governance_score ++ "/100" }

/-- The metadata loop at the end of `_calculate_risk_components`: each
component receives its fixed weight and `contribution = score * weight`. -/
def addComponentMeta (c : RiskComponent) (name : String) : RiskComponent :=
  let w := dictGetD risk_weights name 0
  { c with weight := w, contribution := c.score * w }

/-- `_calculate_risk_components`: the four components with weights and
contributions attached. -/
def calculate_risk_components (ar : AgentResults) : RiskComponents :=
  { security_risk := addComponentMeta (calculate_security_risk ar) "security_risk",
    financial_risk := addComponentMeta (calculate_financial_risk ar) "financial_risk",
    technical_risk := addComponentMeta (calculate_technical_risk ar) "technical_risk",
    governance_risk := addComponentMeta (calculate_governance_risk ar) "governance_risk" }

/-- `_calculate_weighted_risk_score` on an arbitrary component dictionary:
fold accumulating `weighted_sum` and `total_weight` with
`effective_weight = weight * confidence`, then the normalized ratio, with a
simple-mean fallback (50 on an empty dictionary), rounded to 2 decimals. -/
def weighted_risk_score_of (l : List (String × RiskComponent)) : ℚ :=
  let acc := l.foldl
    (fun (a : ℚ × ℚ) p =>
      let effective_weight := p.2.weight * p.2.confidence
      (a.1 + p.2.score * effective_weight, a.2 + effective_weight))
    (0, 0)
  let final_score :=
    if 0 < acc.2 then acc.1 / acc.2
    else
      let scores := l.map (fun p => p.2.score)
      if scores.isEmpty then 50 else listMean scores
  round2 final_score

/-- `_calculate_weighted_risk_score` applied to the four-component dictionary
the synthesis pipeline builds. -/
def calculate_weighted_risk_score (rc : RiskComponents) : ℚ :=
  weighted_risk_score_of (componentsList rc)

/-- `_determine_risk_level` with the fixed thresholds low = 30, medium = 70. -/
def determine_risk_level (risk_score : ℚ) : String :=
  if risk_score ≤ 30 then "LOW"
  else if risk_score ≤ 70 then "MEDIUM"
  else "HIGH"

/-! ## Consensus analysis -/

/-- The four source markers a conservative-default component can carry; the
consensus step excludes components whose source is one of these. -/
def default_sources : List String :=
  ["default_conservative", "default_moderate", "default_high",
   "default_moderate_high"]

/-- One human-readable agreement or conflict message; the numeric range the
source interpolates into the string is kept, the surrounding prose is
abstracted to a tag. -/
inductive ConsensusMsg
  | strong (range : ℚ)
  | moderate (range : ℚ)
  | disagreement (range : ℚ)
deriving DecidableEq

/-- Per-component entry of `component_consensus`: score, confidence and the
derived reliability label. -/
structure ComponentConsensus where
  score : ℚ
  confidence : ℚ
  reliability : String
deriving DecidableEq

/-- The `consensus_analysis` dictionary built by `_analyze_agent_consensus`. -/
structure ConsensusAnalysis where
  overall_consensus : ℚ
  confidence_variance : ℚ
  agreements : List ConsensusMsg
  conflicts : List ConsensusMsg
  component_consensus : List (String × ComponentConsensus)
deriving DecidableEq

/-- `_analyze_agent_consensus` on an arbitrary component dictionary.  Scores
and confidences of components whose source is not a conservative default are
collected; with at least two of them the sample variance, mean and
`max(0, 1 - variance/mean^2)` consensus (0.5 when the mean is not positive)
are computed, and the score range — the difference between the last and first
element of the sorted score list, i.e. max minus min — is classified into an
agreement or conflict message.  With fewer than two genuine scores the
initial values `overall_consensus = 0`, `confidence_variance = 0` and empty
message lists are kept. -/
def analyze_agent_consensus_of (l : List (String × RiskComponent)) :
    ConsensusAnalysis :=
  let genuinePairs := l.filter (fun p => !default_sources.contains p.2.source)
  let risk_scores := genuinePairs.map (fun p => p.2.score)
  let confidences := genuinePairs.map (fun p => p.2.confidence)
  let component_consensus := l.map (fun p =>
    (p.1, { score := p.2.score, confidence := p.2.confidence,
            reliability :=
              if (0.8 : ℚ) < p.2.confidence then "high"
              else if (0.5 : ℚ) < p.2.confidence then "medium"
              else "low" : ComponentConsensus }))
  if 2 ≤ risk_scores.length then
    let score_variance := if 1 < risk_scores.length then listVariance risk_scores else 0
    let score_mean := listMean risk_scores
    let consensus_score :=
      if 0 < score_mean then max 0 (1 - score_variance / score_mean ^ 2)
      else 0.5
    let confidence_variance :=
      if 1 < confidences.length then listVariance confidences else 0
    if 2 ≤ risk_scores.length then
      let score_range := listMax risk_scores - listMin risk_scores
      if score_range < 20 then
        { overall_consensus := consensus_score,
          confidence_variance := confidence_variance,
          agreements := [.strong score_range], conflicts := [],
          component_consensus := component_consensus }
      else if score_range < 40 then
        { overall_consensus := consensus_score,
          confidence_variance := confidence_variance,
          agreements := [.moderate score_range], conflicts := [],
          component_consensus := component_consensus }
      else
        { overall_consensus := consensus_score,
          confidence_variance := confidence_variance,
          agreements := [], conflicts := [.disagreement score_range],
          component_consensus := component_consensus }
    else
      { overall_consensus := consensus_score,
        confidence_variance := confidence_variance,
        agreements := [], conflicts := [],
        component_consensus := component_consensus }
  else
    { overall_consensus := 0, confidence_variance := 0,
      agreements := [], conflicts := [],
      component_consensus := component_consensus }

/-- `_analyze_agent_consensus` applied to the four-component dictionary the
synthesis pipeline builds (its `agent_results` argument is never read). -/
def analyze_agent_consensus (rc : RiskComponents) : ConsensusAnalysis :=
  analyze_agent_consensus_of (componentsList rc)

/-! ## Validation, extraction and overall confidence -/

/-- The fields of the validation dictionary of `_validate_agent_results` that
carry the decision (the per-agent quality assessment, which depends on
wall-clock freshness, is elided). -/
structure ValidationResult where
  valid : Bool
  successful_agents : ℕ
  missing_agents : List String
  minimum_requirements_met : Bool
deriving DecidableEq

/-- Success flags of the three expected agents in their iteration order. -/
def agentSuccessFlags (ar : AgentResults) : List (String × Bool) :=
  [("data_hunter", ar.data_hunter.success),
   ("protocol_analyst", ar.protocol_analyst.success),
   ("market_intelligence", ar.market_intelligence.success)]

/-- `_validate_agent_results`: at least 2 successful agents are required AND
`data_hunter` plus at least one of the analysis agents must be among them. -/
def validate_agent_results (ar : AgentResults) : ValidationResult :=
  let successful := ((agentSuccessFlags ar).filter (fun e => e.2)).map (fun e => e.1)
  let missing := ((agentSuccessFlags ar).filter (fun e => !e.2)).map (fun e => e.1)
  let has_data_hunter := successful.contains "data_hunter"
  let has_analysis_agent :=
    successful.contains "protocol_analyst" || successful.contains "market_intelligence"
  let minimum_requirements_met := has_data_hunter && has_analysis_agent
  { valid := decide (2 ≤ successful.length) && minimum_requirements_met,
    successful_agents := successful.length,
    missing_agents := missing,
    minimum_requirements_met := minimum_requirements_met }

/-- `_calculate_overall_confidence`: equal-weight (0.25 each) blend of mean
successful-agent confidence, overall consensus, completeness
`min(1, successful/3)` and `max(0, 1 - confidence_variance)`, clamped to
`[0.1, 1.0]` and rounded to 3 decimals. -/
def calculate_overall_confidence (ar : AgentResults) (ca : ConsensusAnalysis) : ℚ :=
  let entries : List (Bool × ℚ) :=
    [(ar.data_hunter.success, ar.data_hunter.confidence),
     (ar.protocol_analyst.success, ar.protocol_analyst.confidence),
     (ar.market_intelligence.success, ar.market_intelligence.confidence)]
  let agent_confidences := (entries.filter (fun e => e.1)).map (fun e => e.2)
  let data_quality := if agent_confidences.isEmpty then 0 else listMean agent_confidences
  let agent_consensus := ca.overall_consensus
  let successful_agents := (entries.filter (fun e => e.1)).length
  let analysis_completeness := min 1 ((successful_agents : ℚ) / 3)
  let model_uncertainty := max 0 (1 - ca.confidence_variance)
  let overall_confidence :=
    data_quality * 0.25 + agent_consensus * 0.25 +
    analysis_completeness * 0.25 + model_uncertainty * 0.25
  roundTo 3 (max 0.1 (min 1 overall_confidence))

/-! ## Extraction from `context.previous_results` and the synthesis entry point -/

/-- One stored entry of a session's `agent_results` map as
`store_agent_result` writes it: a wrapper dictionary holding the agent's
result under the key `result`.  The wrapper has no `confidence` key of its
own, so the field is an `Option` defaulting to absent. -/
structure StoredEntry (α : Type) where
  result : α
  confidence : Option ℚ := none
deriving DecidableEq

/-- The `previous_results` map of an agent context, keyed by the ids of the
three agents the synthesizer expects. -/
structure PreviousResults where
  data_hunter : Option (StoredEntry HunterData) := none
  protocol_analyst : Option (StoredEntry AnalystData) := none
  market_intelligence : Option (StoredEntry MarketData) := none
deriving DecidableEq

/-- One agent lookup of `_extract_agent_results`: a stored wrapper with a
`result` key becomes a successful entry carrying that result and the
wrapper's `confidence` (0.0 when absent); anything else becomes a failed
entry with empty data and confidence 0. -/
def extractEntry {α : Type} (empty : α) : Option (StoredEntry α) → AgentEntry α
  | some e => { success := true, data := e.result, confidence := e.confidence.getD 0 }
  | none => { success := false, data := empty, confidence := 0 }

/-- `_extract_agent_results` over the three expected agent ids. -/
def extract_agent_results (pr : PreviousResults) : AgentResults :=
  { data_hunter := extractEntry {} pr.data_hunter,
    protocol_analyst := extractEntry {} pr.protocol_analyst,
    market_intelligence := extractEntry {} pr.market_intelligence }

/-- Data of the synthesizer's `AgentResult`: either the insufficient-data
payload of `_create_insufficient_data_result` or the full assessment payload
(narrative text fields produced by the language model are elided). -/
inductive SynthesisData
  | insufficient (available_agents : ℕ) (missing_agents : List String)
      (minimum_requirements_met : Bool)
  | assessment (final_risk_score : ℚ) (risk_level : String)
      (overall_confidence : ℚ) (risk_components : RiskComponents)
      (consensus_analysis : ConsensusAnalysis)
deriving DecidableEq

/-- Whether a synthesizer payload is the explicit insufficient-data result. -/
def SynthesisData.isInsufficient : SynthesisData → Bool
  | .insufficient _ _ _ => true
  | .assessment _ _ _ _ _ => false

/-- The `AgentResult` dataclass of `base_adk_agent.py`, with the payload type
as a parameter (execution time and timestamp, pure wall-clock data, are
elided). -/
structure AgentResult (δ : Type) where
  agent_id : String
  success : Bool
  data : δ
  confidence : ℚ
  reasoning : String
  errors : List String
deriving DecidableEq

/-- The deterministic core of the synthesizer's `analyze` on an extracted
`agent_results` map: validation gate, then components, consensus, weighted
score, tier and overall confidence. -/
def synthesize (ar : AgentResults) : AgentResult SynthesisData :=
  let validation := validate_agent_results ar
  if validation.valid = false then
    let error_msg :=
      "Insufficient agent data for comprehensive risk synthesis. Successful agents: " ++
      toString validation.successful_agents ++ "/3. Missing: " ++
      String.intercalate ", " validation.missing_agents
    { agent_id := "risk_synthesizer", success := false,
      data := .insufficient validation.successful_agents validation.missing_agents
        validation.minimum_requirements_met,
      confidence := 0, reasoning := error_msg, errors := [error_msg] }
  else
    let risk_components := calculate_risk_components ar
    let consensus_analysis := analyze_agent_consensus risk_components
    let final_risk_score := calculate_weighted_risk_score risk_components
    let risk_level := determine_risk_level final_risk_score
    let overall_confidence := calculate_overall_confidence ar consensus_analysis
    { agent_id := "risk_synthesizer", success := true,
      data := .assessment final_risk_score risk_level overall_confidence
        risk_components consensus_analysis,
      confidence := overall_confidence,
      reasoning := "Risk synthesis completed", errors := [] }

/-- The synthesizer's `analyze` as a function of the context's
`previous_results` map it extracts from. -/
def synthesizer_analyze (pr : PreviousResults) : AgentResult SynthesisData :=
  synthesize (extract_agent_results pr)

/-! ## Orchestrator: response models and their checked construction

`models/response_models.py` declares pydantic models whose required fields
have no defaults; constructing one with a required field absent raises a
`ValidationError`.  Each call site in the orchestrator is modelled by the
keyword-argument record it actually passes (absent keywords are `none`;
keywords that are not fields of the model are listed too, pydantic ignores
them) and a checked constructor returning `Except`, the `raise` channel. -/

/-- The orchestrator-level risk levels of `models/response_models.py`. -/
inductive RiskLevel
  | low
  | medium
  | high
  | critical
deriving DecidableEq

/-- `ComponentRiskScore` of `models/response_models.py`: five required
per-category scores. -/
structure ComponentRiskScore where
  security : ℚ
  financial : ℚ
  governance : ℚ
  social : ℚ
  technical : ℚ
deriving DecidableEq

/-- Keyword arguments of a `ComponentRiskScore(...)` call.  `liquidity` is
not a field of the model; pydantic ignores it. -/
structure ComponentRiskScoreKwargs where
  security : Option ℚ := none
  financial : Option ℚ := none
  governance : Option ℚ := none
  social : Option ℚ := none
  technical : Option ℚ := none
  liquidity : Option ℚ := none
deriving DecidableEq

/-- Pydantic validation of a `ComponentRiskScore(...)` call: every required
field must be supplied, or a `ValidationError` is raised. -/
def ComponentRiskScore.construct (kw : ComponentRiskScoreKwargs) :
    Except String ComponentRiskScore :=
  match kw.security, kw.financial, kw.governance, kw.social, kw.technical with
  | some s, some f, some g, some so, some t => .ok ⟨s, f, g, so, t⟩
  | _, _, _, _, _ =>
      .error "ValidationError: ComponentRiskScore missing required fields"

/-- `DataQuality` of `models/response_models.py`: five required fields. -/
structure DataQuality where
  overall_score : ℚ
  completeness : ℚ
  freshness : ℚ
  accuracy : ℚ
  sources_validated : ℕ
deriving DecidableEq

/-- Keyword arguments of a `DataQuality(...)` call.  `reliability`,
`source_count` and `last_updated` are not fields of the model; pydantic
ignores them (`last_updated`, a timestamp, is elided). -/
structure DataQualityKwargs where
  overall_score : Option ℚ := none
  completeness : Option ℚ := none
  freshness : Option ℚ := none
  accuracy : Option ℚ := none
  sources_validated : Option ℕ := none
  reliability : Option ℚ := none
  source_count : Option ℕ := none
deriving DecidableEq

/-- Pydantic validation of a `DataQuality(...)` call. -/
def DataQuality.construct (kw : DataQualityKwargs) : Except String DataQuality :=
  match kw.overall_score, kw.completeness, kw.freshness, kw.accuracy,
      kw.sources_validated with
  | some o, some c, some f, some a, some s => .ok ⟨o, c, f, a, s⟩
  | _, _, _, _, _ =>
      .error "ValidationError: DataQuality missing required fields"

/-- The fields of the `RiskAssessment` response model that the orchestrator
populates with decision-relevant values (list fields it always passes empty
and wall-clock fields are elided). -/
structure RiskAssessment where
  protocol_name : String
  overall_risk_score : ℚ
  risk_level : RiskLevel
  confidence : ℚ
  component_scores : ComponentRiskScore
  data_quality : DataQuality
  session_id : String
  executive_summary : String
  detailed_explanation : String
deriving DecidableEq

/-- `_create_error_assessment`: builds the CRITICAL stand-in assessment.  Its
`ComponentRiskScore(security=100.0, liquidity=100.0, governance=100.0,
technical=100.0)` call omits the required `financial` and `social` fields, so
pydantic raises before the assessment is assembled. -/
def create_error_assessment (protocol_name session_id error_type error_message : String) :
    Except String RiskAssessment := do
  let component_scores ← ComponentRiskScore.construct
    { security := some 100, liquidity := some 100, governance := some 100,
      technical := some 100 }
  let data_quality ← DataQuality.construct
    { completeness := some 0, freshness := some 0, reliability := some 0,
      source_count := some 0 }
  .ok { protocol_name := protocol_name, overall_risk_score := 100,
        risk_level := .critical, confidence := 0,
        component_scores := component_scores, data_quality := data_quality,
        session_id := session_id,
        executive_summary :=
          "Risk assessment for " ++ protocol_name ++ " failed: " ++ error_type,
        detailed_explanation :=
          "Assessment could not be completed due to: " ++ error_message }

/-- One entry of the per-agent result dictionaries the orchestrator threads
into `_compile_final_assessment` (both the `_execute_agent_with_runner`
return shape and `_create_error_result`). -/
structure OrchResult where
  status : String
  success : Bool
  confidence : ℚ
  error : Option String := none
deriving DecidableEq

/-- The agent result map given to `_compile_final_assessment`, in its
insertion order data_hunter, protocol_analyst, market_intelligence,
risk_synthesizer. -/
def orchResultsList (dh pa mi rs : OrchResult) : List (String × OrchResult) :=
  [("data_hunter", dh), ("protocol_analyst", pa),
   ("market_intelligence", mi), ("risk_synthesizer", rs)]

/-- The overall risk score `_compile_final_assessment` computes: the fixed
default 60.0 when any agent did not fail, 80.0 otherwise — the synthesizer's
weighted score is not consulted. -/
def compileOverallScore (results : List (String × OrchResult)) : ℚ :=
  let successful_agents := results.filter (fun p => p.2.status != "failed")
  if successful_agents.isEmpty then 80 else 60

/-- The `try` body of `_compile_final_assessment`: fixed scores and levels
from the count of non-failed agents, then construction of the response
models.  Its `ComponentRiskScore(security=60.0, liquidity=60.0,
governance=60.0, technical=60.0)` call omits the required `financial` and
`social` fields, so pydantic raises here on every input. -/
def compileInner (protocol_name session_id : String)
    (results : List (String × OrchResult)) : Except String RiskAssessment := do
  let successful_agents := results.filter (fun p => p.2.status != "failed")
  let overall_risk_score : ℚ := if successful_agents.isEmpty then 80 else 60
  let risk_level : RiskLevel := if successful_agents.isEmpty then .high else .medium
  let confidence : ℚ := if successful_agents.isEmpty then 0.1 else 0.5
  let component_scores ← ComponentRiskScore.construct
    { security := some 60, liquidity := some 60, governance := some 60,
      technical := some 60 }
  let data_quality ← DataQuality.construct
    { completeness := some (if successful_agents.isEmpty then 0.1 else 0.7),
      freshness := some 0.8,
      reliability := some (if successful_agents.isEmpty then 0.2 else 0.6),
      source_count := some successful_agents.length }
  .ok { protocol_name := protocol_name,
        overall_risk_score := overall_risk_score, risk_level := risk_level,
        confidence := confidence, component_scores := component_scores,
        data_quality := data_quality, session_id := session_id,
        executive_summary :=
          "Risk assessment for " ++ protocol_name ++ " completed with " ++
          toString successful_agents.length ++ "/4 agents successful.",
        detailed_explanation := "Analysis involved " ++
          toString results.length ++ " agents." }

/-- `_compile_final_assessment`: the `try` body, and on its failure the
`except` fallback, whose own `ComponentRiskScore(security=100.0,
liquidity=100.0, governance=100.0, technical=100.0)` call also omits
`financial` and `social`, so the fallback raises too and the exception
propagates out of the compiler. -/
def compile_final_assessment (protocol_name session_id : String)
    (results : List (String × OrchResult)) : Except String RiskAssessment :=
  match compileInner protocol_name session_id results with
  | .ok a => .ok a
  | .error e => do
      let component_scores ← ComponentRiskScore.construct
        { security := some 100, liquidity := some 100, governance := some 100,
          technical := some 100 }
      let data_quality ← DataQuality.construct
        { completeness := some 0, freshness := some 0, reliability := some 0,
          source_count := some 0 }
      .ok { protocol_name := protocol_name, overall_risk_score := 100,
            risk_level := .critical, confidence := 0,
            component_scores := component_scores, data_quality := data_quality,
            session_id := session_id,
            executive_summary := "Risk assessment for " ++ protocol_name ++
              " failed due to compilation error.",
            detailed_explanation :=
              "Error during assessment compilation: " ++ e }

/-- The inner `try` body of `assess_protocol_risk`: cache check, protocol
support check (the supported-protocol set is loaded from configuration and
passed here as a flag), then the multi-agent workflow, whose outcome —
a compiled assessment or an exception — is the `workflow` argument. -/
def assessInner (protocol_name session_id : String)
    (cached : Option RiskAssessment) (supported : Bool)
    (workflow : Except String RiskAssessment) : Except String RiskAssessment :=
  match cached with
  | some a => .ok a
  | none =>
    if !supported then
      create_error_assessment protocol_name session_id "unsupported_protocol"
        ("Protocol not supported: " ++ protocol_name)
    else
      match workflow with
      | .ok a => .ok a
      | .error e =>
          create_error_assessment protocol_name session_id "workflow_failure" e

/-- `assess_protocol_risk`: the inner flow under the outermost
`except Exception` handler, which itself answers with
`_create_error_assessment` — a call that raises again, so the exception
reaches the caller. -/
def assess_protocol_risk (protocol_name session_id : String)
    (cached : Option RiskAssessment) (supported : Bool)
    (workflow : Except String RiskAssessment) : Except String RiskAssessment :=
  match assessInner protocol_name session_id cached supported workflow with
  | .ok a => .ok a
  | .error e =>
      create_error_assessment protocol_name session_id "general_failure" e

/-- The `AgentContext` dataclass of `base_adk_agent.py`. -/
structure AgentContext where
  session_id : String
  protocol_name : String
  parameters : List (String × String)
  previous_results : PreviousResults
deriving DecidableEq

/-- The context `_execute_agent_with_runner` builds for every agent in every
phase: its `previous_results` is the literal empty dictionary. -/
def mkRunnerContext (session_id protocol_name phase : String) : AgentContext :=
  { session_id := session_id, protocol_name := protocol_name,
    parameters := [("phase", phase)], previous_results := {} }

/-- `store_agent_result` of the memory manager, restricted to the data-hunter
slot of a session's `agent_results` map: the result is wrapped in an entry
under the key `result` (the wrapper carries no `confidence` key). -/
def store_data_hunter_result (session : PreviousResults) (result : HunterData) :
    PreviousResults :=
  { session with data_hunter := some { result := result } }

/-! ## The agent execution wrapper of `base_adk_agent.py`

One call to an agent's `analyze` either returns an `AgentResult` or raises;
`_execute_with_timeout` retries it, and `execute` races the whole retry loop
against `asyncio.wait_for`.  A behaviour is therefore either the timeout
winning the race, or a function giving the outcome of each numbered attempt.
Backoff sleeps are recorded in a list of delays (in seconds) instead of being
performed. -/

/-- Outcome of one `analyze` attempt: a returned result or a raised fault. -/
inductive AttemptOutcome (δ : Type)
  | ok (r : AgentResult δ)
  | fault (error : String)

/-- Behaviour of one agent execution: the configured timeout fires, or every
attempt runs and has the given outcome. -/
inductive AnalyzeBehavior (δ : Type)
  | timesOut
  | attempts (f : ℕ → AttemptOutcome δ)

/-- `self.max_retries` of `BaseChainGuardAgent`. -/
def max_retries : ℕ := 3

/-- `settings.AGENT_TIMEOUT_SECONDS` (its configured default). -/
def timeout_seconds : ℕ := 120

/-- The retry loop of `_execute_with_timeout`: attempt `analyze`; on a fault
before the last allowed attempt sleep `2 ** attempt` seconds and retry, and
after the last attempt re-raise the last error.  `fuel` counts the attempts
still allowed; the result pairs the `Except` outcome with the list of backoff
delays slept. -/
def retryFrom {δ : Type} (f : ℕ → AttemptOutcome δ) :
    (attempt : ℕ) → (fuel : ℕ) → (last_error : String) →
    Except String (AgentResult δ) × List ℕ
  | _, 0, last_error => (.error last_error, [])
  | attempt, fuel + 1, _ =>
    match f attempt with
    | .ok r => (.ok r, [])
    | .fault e =>
      if fuel = 0 then (.error e, [])
      else
        let rest := retryFrom f (attempt + 1) fuel e
        (rest.1, 2 ^ attempt :: rest.2)

/-- `_execute_with_timeout`: the retry loop started at attempt 0 with
`max_retries` attempts allowed. -/
def execute_with_timeout {δ : Type} (f : ℕ → AttemptOutcome δ) :
    Except String (AgentResult δ) × List ℕ :=
  retryFrom f 0 max_retries ""

/-- The error message of the timeout branch of `execute`. -/
def timeoutErrorMsg (agent_id : String) : String :=
  "Agent " ++ agent_id ++ " timed out after " ++ toString timeout_seconds ++ "s"

/-- The error message of the generic exception branch of `execute`. -/
def failureErrorMsg (agent_id error : String) : String :=
  "Agent " ++ agent_id ++ " failed: " ++ error

/-- `execute`: the wrapper converting every behaviour into an `AgentResult`.
A timeout becomes a failed result whose errors list records the timeout; a
fault surviving all retries becomes a failed result carrying the error; a
returned result is passed through.  `empty` is the empty payload the failed
results carry as `data={}`.  The second component is the list of backoff
delays slept. -/
def execute {δ : Type} (agent_id : String) (empty : δ)
    (behavior : AnalyzeBehavior δ) : AgentResult δ × List ℕ :=
  match behavior with
  | .timesOut =>
      ({ agent_id := agent_id, success := false, data := empty, confidence := 0,
         reasoning := "Execution timed out after " ++
           toString timeout_seconds ++ " seconds",
         errors := [timeoutErrorMsg agent_id] }, [])
  | .attempts f =>
      match execute_with_timeout f with
      | (.ok r, delays) => (r, delays)
      | (.error e, delays) =>
          ({ agent_id := agent_id, success := false, data := empty,
             confidence := 0,
             reasoning := "Execution failed: " ++ e,
             errors := [failureErrorMsg agent_id e] }, delays)

/-! ## The memory manager's `update_agent_memory` -/

/-- One historical assessment entry (its wall-clock timestamp is elided; the
assessment payload is kept opaque as the protocol name and confidence the
base agent records). -/
structure AssessmentRecord where
  protocol : String
  confidence : ℚ
deriving DecidableEq

/-- The `AgentMemory` dataclass of `adk_memory_manager.py`. -/
structure AgentMemory where
  agent_id : String
  protocol_patterns : List (String × String) := []
  learned_data_sources : List (String × String) := []
  historical_assessments : List AssessmentRecord := []
  confidence_calibration : List (String × ℚ) := []
deriving DecidableEq

/-- A `memory_update` dictionary passed to `update_agent_memory`; a key is
present when its component is non-trivial (`assessment` when the option is
`some`). -/
structure MemoryUpdate where
  protocol_patterns : List (String × String) := []
  learned_data_sources : List (String × String) := []
  assessment : Option AssessmentRecord := none
  confidence_calibration : List (String × ℚ) := []
deriving DecidableEq

/-- `update_agent_memory`: merges the dictionary-valued components, appends
the assessment entry when one is given, and when the history then exceeds 100
entries keeps only the last 100 (`historical_assessments[-100:]`). -/
def update_agent_memory (memory : AgentMemory) (memory_update : MemoryUpdate) :
    AgentMemory :=
  let pp := dictUpdate memory.protocol_patterns memory_update.protocol_patterns
  let m1 := { memory with protocol_patterns := pp }
  let lds := dictUpdate m1.learned_data_sources memory_update.learned_data_sources
  let m2 := { m1 with learned_data_sources := lds }
  let m3 :=
    match memory_update.assessment with
    | none => m2
    | some a =>
      let h := m2.historical_assessments ++ [a]
      let trimmed := if 100 < h.length then h.drop (h.length - 100) else h
      { m2 with historical_assessments := trimmed }
  let cc := dictUpdate m3.confidence_calibration memory_update.confidence_calibration
  { m3 with confidence_calibration := cc }

/-! ## Claim-side definitions

These follow the specification's wording, to be compared with the functions
above, which are translated from the source. -/

/-- Sufficiency condition as the specification states it: at least two of the
three units succeeded and at least one successful unit is a primary analysis
unit (not the discovery unit alone). -/
def specSufficientUnits (ar : AgentResults) : Prop :=
  2 ≤ (((agentSuccessFlags ar).filter (fun e => e.2)).length) ∧
  (ar.protocol_analyst.success = true ∨ ar.market_intelligence.success = true)

/-- Final-score formula as the specification states it: the sum of
`score * weight * confidence` over the components, divided by the sum of
`weight * confidence`, with a simple-mean fallback when the total effective
weight is not positive — stated without the 2-decimal rounding the source
applies. -/
def claimFinalScore (rc : RiskComponents) : ℚ :=
  let l := componentsList rc
  let num := (l.map (fun p => p.2.score * p.2.weight * p.2.confidence)).sum
  let den := (l.map (fun p => p.2.weight * p.2.confidence)).sum
  if 0 < den then num / den else listMean (l.map (fun p => p.2.score))

/-- Scores of the components that came from genuinely successful units: those
whose source is not one of the conservative-default markers. -/
def claimGenuineScores (rc : RiskComponents) : List ℚ :=
  ((componentsList rc).filter
    (fun p => !default_sources.contains p.2.source)).map (fun p => p.2.score)

/-- Consensus formula as the specification states it:
`max(0, 1 - variance/mean^2)` over the genuine component scores when their
mean is positive, else the neutral value 0.5. -/
def claimConsensus (rc : RiskComponents) : ℚ :=
  let scores := claimGenuineScores rc
  let m := listMean scores
  if 0 < m then max 0 (1 - listVariance scores / m ^ 2) else 0.5

/-- Four components carrying one identical score and confidence, with the
pipeline's fixed weights attached, from the given sources. -/
def uniformComponents (S c : ℚ) (s1 s2 s3 s4 : String) : RiskComponents :=
  { security_risk :=
      addComponentMeta { score := S, confidence := c, source := s1 } "security_risk",
    financial_risk :=
      addComponentMeta { score := S, confidence := c, source := s2 } "financial_risk",
    technical_risk :=
      addComponentMeta { score := S, confidence := c, source := s3 } "technical_risk",
    governance_risk :=
      addComponentMeta { score := S, confidence := c, source := s4 } "governance_risk" }

/-! ## Concrete inputs used by counterexamples and witnesses -/

/-- Agent results in which the discovery unit failed while both primary
analysis units succeeded. -/
def analysisOnlyResults : AgentResults :=
  { data_hunter := { success := false, data := {}, confidence := 0 },
    protocol_analyst := { success := true, data := {}, confidence := 0.8 },
    market_intelligence := { success := true, data := {}, confidence := 0.8 } }

/-- Agent results in which the discovery unit and one analysis unit
succeeded. -/
def hunterAnalystResults : AgentResults :=
  { data_hunter := { success := true, data := {}, confidence := 0.9 },
    protocol_analyst := { success := true, data := {}, confidence := 0.8 },
    market_intelligence := { success := false, data := {}, confidence := 0 } }

/-- Agent results in which every unit failed. -/
def allFailedResults : AgentResults :=
  { data_hunter := { success := false, data := {}, confidence := 0 },
    protocol_analyst := { success := false, data := {}, confidence := 0 },
    market_intelligence := { success := false, data := {}, confidence := 0 } }

/-- Components whose exact normalized weighted score `950/13` has more than
two decimal places, so the source's 2-decimal rounding changes it. -/
def roundingComponents : RiskComponents :=
  { security_risk :=
      { score := 50, confidence := 1, source := "protocol_analyst",
        weight := 0.35, contribution := 17.5 },
    financial_risk :=
      { score := 100, confidence := 1, source := "market_intelligence",
        weight := 0.30, contribution := 30 },
    technical_risk :=
      { score := 0, confidence := 0, source := "data_hunter",
        weight := 0.20, contribution := 0 },
    governance_risk :=
      { score := 0, confidence := 0, source := "protocol_analyst_governance",
        weight := 0.15, contribution := 0 } }

/-- Components of which exactly one is genuine (the other three are
conservative defaults), the genuine one scoring 0. -/
def singleGenuineComponents : RiskComponents :=
  { security_risk :=
      { score := 75, confidence := 0.2, source := "default_conservative",
        weight := 0.35, contribution := 26.25 },
    financial_risk :=
      { score := 60, confidence := 0.3, source := "default_moderate",
        weight := 0.30, contribution := 18 },
    technical_risk :=
      { score := 0, confidence := 0.8, source := "data_hunter",
        weight := 0.20, contribution := 0 },
    governance_risk :=
      { score := 65, confidence := 0.2, source := "default_moderate_high",
        weight := 0.15, contribution := 9.75 } }

/-- Components with two genuine sources agreeing closely, for exercising the
strong-consensus band. -/
def twoGenuineComponents : RiskComponents :=
  { security_risk :=
      { score := 75, confidence := 0.2, source := "default_conservative",
        weight := 0.35, contribution := 26.25 },
    financial_risk :=
      { score := 50, confidence := 0.9, source := "market_intelligence",
        weight := 0.30, contribution := 15 },
    technical_risk :=
      { score := 40, confidence := 0.8, source := "data_hunter",
        weight := 0.20, contribution := 8 },
    governance_risk :=
      { score := 65, confidence := 0.2, source := "default_moderate_high",
        weight := 0.15, contribution := 9.75 } }

/-- All four components genuine and identical at score 0: the degenerate case
of the identical-scores property. -/
def zeroScoreComponents : RiskComponents :=
  uniformComponents 0 1 "protocol_analyst" "market_intelligence" "data_hunter"
    "protocol_analyst_governance"

/-- All four components genuine and identical at score 50. -/
def fiftyScoreComponents : RiskComponents :=
  uniformComponents 50 1 "protocol_analyst" "market_intelligence" "data_hunter"
    "protocol_analyst_governance"

/-- The component dictionary of the specification's end-to-end scenario: two
analysis components scoring 40 and 60 with weights 0.6 and 0.4 at full
confidence. -/
def endToEndComponents : List (String × RiskComponent) :=
  [("protocol_analysis",
    { score := 40, confidence := 1, source := "protocol_analyst",
      weight := 0.6, contribution := 24 }),
   ("market_analysis",
    { score := 60, confidence := 1, source := "market_intelligence",
      weight := 0.4, contribution := 24 })]

/-- The orchestrator-level agent results of the end-to-end scenario: the
discovery unit failed, both analysis units completed, and the synthesizer
reported insufficient data (a failed status). -/
def endToEndOrchResults : List (String × OrchResult) :=
  orchResultsList
    { status := "failed", success := false, confidence := 0,
      error := some "data hunter failed" }
    { status := "completed", success := true, confidence := 1 }
    { status := "completed", success := true, confidence := 1 }
    { status := "failed", success := false, confidence := 0,
      error := some "insufficient data" }

/-- A data-hunter payload as stored in the session after a successful
discovery phase. -/
def hunterPayloadExample : HunterData :=
  { data_validation := some { overall_quality_score := some 80 } }

/-- A session `agent_results` map holding the stored successful data-hunter
result. -/
def storedSessionExample : PreviousResults :=
  store_data_hunter_result {} hunterPayloadExample

/-- A memory at the 100-entry bound. -/
def memoryAtBound : AgentMemory :=
  { agent_id := "data_hunter",
    historical_assessments :=
      List.replicate 100 { protocol := "aave", confidence := 0.5 } }

/-- A memory update carrying one new assessment. -/
def updateWithAssessment : MemoryUpdate :=
  { assessment := some { protocol := "compound", confidence := 0.7 } }

/-! ## Helper lemmas -/

/-- Sum of a list all of whose elements are `S`. -/
theorem listSum_of_all_eq {S : ℚ} {l : List ℚ} (h : ∀ x ∈ l, x = S) :
    l.sum = l.length * S := by
  induction l with
  | nil => simp
  | cons a t ih =>
    have ha := h a (by simp)
    have ht : ∀ x ∈ t, x = S := fun x hx => h x (by simp [hx])
    rw [List.sum_cons, ha, ih ht, List.length_cons]
    push_cast
    ring

/-- Mean of a nonempty list all of whose elements are `S`. -/
theorem listMean_of_all_eq {S : ℚ} {l : List ℚ} (h : ∀ x ∈ l, x = S)
    (hl : l ≠ []) : listMean l = S := by
  have hlen : (l.length : ℚ) ≠ 0 := by
    exact_mod_cast (List.length_pos.2 hl).ne'
  unfold listMean
  rw [listSum_of_all_eq h, mul_comm, mul_div_assoc, div_self hlen, mul_one]

/-- Sample variance of a list all of whose elements are equal. -/
theorem listVariance_of_all_eq {S : ℚ} {l : List ℚ} (h : ∀ x ∈ l, x = S) :
    listVariance l = 0 := by
  rcases eq_or_ne l [] with hl | hl
  · subst hl; simp [listVariance, listMean]
  · have hm : listMean l = S := listMean_of_all_eq h hl
    simp only [listVariance]
    have hmap : l.map (fun x => (x - listMean l) ^ 2) = l.map (fun _ => 0) := by
      apply List.map_congr_left
      intro x hx
      rw [hm, h x hx, sub_self]
      ring
    rw [hmap]
    simp

/-- The accumulating fold of `_calculate_weighted_risk_score` computes the
closed-form normalized ratio (or mean fallback), rounded to 2 decimals. -/
theorem calculate_weighted_eq_claim (rc : RiskComponents) :
    calculate_weighted_risk_score rc = round2 (claimFinalScore rc) := by
  rcases rc with ⟨c1, c2, c3, c4⟩
  simp only [calculate_weighted_risk_score, weighted_risk_score_of, claimFinalScore,
    componentsList, List.foldl_cons, List.foldl_nil, List.map_cons, List.map_nil,
    List.sum_cons, List.sum_nil, List.isEmpty_cons, listMean, List.length_cons,
    List.length_nil]
  have hA : (0 : ℚ) + c1.weight * c1.confidence + c2.weight * c2.confidence +
      c3.weight * c3.confidence + c4.weight * c4.confidence =
      c1.weight * c1.confidence + (c2.weight * c2.confidence +
        (c3.weight * c3.confidence + (c4.weight * c4.confidence + 0))) := by ring
  have hB : (0 : ℚ) + c1.score * (c1.weight * c1.confidence) +
      c2.score * (c2.weight * c2.confidence) +
      c3.score * (c3.weight * c3.confidence) +
      c4.score * (c4.weight * c4.confidence) =
      c1.score * c1.weight * c1.confidence + (c2.score * c2.weight * c2.confidence +
        (c3.score * c3.weight * c3.confidence +
          (c4.score * c4.weight * c4.confidence + 0))) := by ring
  rw [hA, hB]
  simp

/-- With at least two genuine component scores the consensus value is the
guarded variance formula. -/
theorem overall_consensus_ge2 (rc : RiskComponents)
    (h2 : 2 ≤ (claimGenuineScores rc).length) :
    (analyze_agent_consensus rc).overall_consensus =
      (if 0 < listMean (claimGenuineScores rc) then
        max 0 (1 - listVariance (claimGenuineScores rc) /
          listMean (claimGenuineScores rc) ^ 2)
      else 0.5) := by
  simp only [claimGenuineScores] at h2 ⊢
  simp only [analyze_agent_consensus, analyze_agent_consensus_of]
  split_ifs <;> first | rfl | omega

/-- With fewer than two genuine component scores the consensus value keeps
its initial value 0. -/
theorem overall_consensus_lt2 (rc : RiskComponents)
    (h2 : (claimGenuineScores rc).length < 2) :
    (analyze_agent_consensus rc).overall_consensus = 0 := by
  simp only [claimGenuineScores] at h2
  simp only [analyze_agent_consensus, analyze_agent_consensus_of]
  split_ifs <;> first | rfl | omega

/-- With at least two genuine component scores, the score range is classified
into the strong/moderate/conflict bands at thresholds 20 and 40. -/
theorem consensus_bands (rc : RiskComponents)
    (h2 : 2 ≤ (claimGenuineScores rc).length) :
    (((analyze_agent_consensus rc).agreements,
      (analyze_agent_consensus rc).conflicts) =
      (let r := listMax (claimGenuineScores rc) - listMin (claimGenuineScores rc)
       if r < 20 then ([ConsensusMsg.strong r], [])
       else if r < 40 then ([ConsensusMsg.moderate r], [])
       else ([], [ConsensusMsg.disagreement r]))) := by
  simp only [claimGenuineScores] at h2 ⊢
  simp only [analyze_agent_consensus, analyze_agent_consensus_of]
  split_ifs <;> first | rfl | omega

/-- Every genuine component score is one of the four component scores. -/
theorem claimGenuineScores_mem {rc : RiskComponents} {x : ℚ}
    (hx : x ∈ claimGenuineScores rc) :
    x = rc.security_risk.score ∨ x = rc.financial_risk.score ∨
      x = rc.technical_risk.score ∨ x = rc.governance_risk.score := by
  simp only [claimGenuineScores, componentsList, List.mem_map, List.mem_filter] at hx
  obtain ⟨p, ⟨hp, _⟩, hps⟩ := hx
  simp only [List.mem_cons, List.not_mem_nil, or_false] at hp
  rcases hp with h | h | h | h <;> subst h <;> simp [hps.symm]

/-- In a uniform component set every genuine score is the common score. -/
theorem uniform_genuine_all_eq (S c : ℚ) (s1 s2 s3 s4 : String) :
    ∀ x ∈ claimGenuineScores (uniformComponents S c s1 s2 s3 s4), x = S := by
  intro x hx
  rcases claimGenuineScores_mem hx with h | h | h | h <;>
    simpa [uniformComponents, addComponentMeta] using h

/-- The claim-side final score of a uniform component set is its common
score, for a positive common confidence. -/
theorem claimFinalScore_uniform (S c : ℚ) (hc : 0 < c) (s1 s2 s3 s4 : String) :
    claimFinalScore (uniformComponents S c s1 s2 s3 s4) = S := by
  have hw1 : dictGetD risk_weights "security_risk" 0 = 0.35 := rfl
  have hw2 : dictGetD risk_weights "financial_risk" 0 = 0.30 := rfl
  have hw3 : dictGetD risk_weights "technical_risk" 0 = 0.20 := rfl
  have hw4 : dictGetD risk_weights "governance_risk" 0 = 0.15 := rfl
  simp only [claimFinalScore, componentsList, uniformComponents, addComponentMeta,
    hw1, hw2, hw3, hw4, List.map_cons, List.map_nil, List.sum_cons, List.sum_nil]
  have hden : (0.35 : ℚ) * c + (0.30 * c + (0.20 * c + (0.15 * c + 0))) = c := by ring
  rw [hden, if_pos hc]
  have hnum : S * (0.35 : ℚ) * c + (S * 0.30 * c + (S * 0.20 * c + (S * 0.15 * c + 0)))
      = S * c := by ring
  rw [hnum, mul_div_assoc, div_self hc.ne', mul_one]

/-- A run of `analyze` in which every attempt raises ends with the last error
after sleeping the backoff delays 1 and 2 seconds. -/
theorem execute_with_timeout_fault {δ : Type} (f : ℕ → AttemptOutcome δ)
    (e : String) (hf : ∀ n, f n = .fault e) :
    execute_with_timeout f = (Except.error e, [1, 2]) := by
  show retryFrom f 0 (2 + 1) "" = (Except.error e, [1, 2])
  rw [retryFrom, hf 0]
  norm_num
  rw [show (2 : ℕ) = 1 + 1 from rfl, retryFrom, hf 1]
  norm_num
  rw [show (1 : ℕ) = 0 + 1 from rfl, retryFrom, hf 2]
  norm_num

/-! ## The claims -/

/-- Claim C1, counterexample: with the discovery unit failed and both primary
analysis units successful, the spec's sufficiency condition holds (two
successful units, both of them analysis units), yet the synthesizer rejects
the run with the explicit insufficient-data result, because its validation
also requires `data_hunter` itself to be among the successful agents. -/
theorem two_analysis_units_insufficient :
    specSufficientUnits analysisOnlyResults ∧
    (synthesize analysisOnlyResults).success = false ∧
    (synthesize analysisOnlyResults).data.isInsufficient = true := by
  refine ⟨?_, rfl, rfl⟩
  norm_num [specSufficientUnits, agentSuccessFlags, analysisOnlyResults, List.filter]

/-- Claim C1, amended: the synthesizer produces a successful assessment if
and only if the discovery unit (`data_hunter`) succeeded and at least one
primary analysis unit succeeded (which entails at least two successful
units); in every other case it returns the explicit insufficient-data
result. -/
theorem synthesize_success_iff (ar : AgentResults) :
    ((synthesize ar).success = true ↔
      (ar.data_hunter.success = true ∧
        (ar.protocol_analyst.success = true ∨
          ar.market_intelligence.success = true))) ∧
    ((synthesize ar).success = false →
      (synthesize ar).data.isInsufficient = true) := by
  obtain ⟨⟨dhs, dhd, dhc⟩, ⟨pas, pad, pac⟩, ⟨mis, mid, mic⟩⟩ := ar
  cases dhs <;> cases pas <;> cases mis <;>
    simp [synthesize, validate_agent_results, agentSuccessFlags,
      SynthesisData.isInsufficient, List.filter, List.contains]

/-- Claim C1, witness: with discovery and one analysis unit successful the
synthesizer produces a successful assessment. -/
theorem synthesize_success_iff_witness :
    (synthesize hunterAnalystResults).success = true :=
  (synthesize_success_iff hunterAnalystResults).1.mpr ⟨rfl, Or.inl rfl⟩

/-- Claim C2: the synthesizer's weighted-score function on the scenario's two
components (scores 40 and 60, weights 0.6 and 0.4, confidences 1.0) does
yield 48, which the tier function classifies MEDIUM; but in the described run
the caller never receives that score: the orchestrator's compiler uses its
fixed default 60.0 for any non-empty set of completed agents and never
consults the synthesizer's score, its response-model construction raises a
validation error on every input, and the synthesizer itself reports
insufficient data because discovery failed. -/
theorem end_to_end_score_divergence :
    weighted_risk_score_of endToEndComponents = 48 ∧
    determine_risk_level 48 = "MEDIUM" ∧
    compileOverallScore endToEndOrchResults = 60 ∧
    compile_final_assessment "Aave" "session_1" endToEndOrchResults =
      Except.error "ValidationError: ComponentRiskScore missing required fields" ∧
    (synthesize analysisOnlyResults).data.isInsufficient = true := by
  refine ⟨?_, ?_, rfl, rfl, rfl⟩
  · norm_num [weighted_risk_score_of, endToEndComponents, round2, roundTo, roundHalfEven]
  · norm_num [determine_risk_level]

/-- Claim C3: the context the orchestrator builds for the synthesis phase
carries the literal empty `previous_results` dictionary, so the synthesizer
extracts every prior agent as failed — even in a run whose session store
holds a successful stored data-hunter result, whose extraction would be
successful. -/
theorem synthesizer_context_empty :
    (mkRunnerContext "assessment_Aave_1" "Aave" "risk_synthesis").previous_results =
      ({} : PreviousResults) ∧
    (extract_agent_results (mkRunnerContext "assessment_Aave_1" "Aave"
      "risk_synthesis").previous_results).data_hunter.success = false ∧
    (extract_agent_results storedSessionExample).data_hunter.success = true :=
  ⟨rfl, rfl, rfl⟩

/-- Claim C4, counterexample: on components whose exact normalized score is
`950/13 = 73.0769…`, the function returns the 2-decimal rounding `73.08`,
which is strictly larger than the exact ratio the claim states. -/
theorem weighted_risk_score_rounding_counterexample :
    calculate_weighted_risk_score roundingComponents = 7308 / 100 ∧
    claimFinalScore roundingComponents = 950 / 13 ∧
    (950 / 13 : ℚ) < 7308 / 100 := by
  refine ⟨?_, ?_, by norm_num⟩
  · norm_num [calculate_weighted_risk_score, weighted_risk_score_of, componentsList,
      roundingComponents, round2, roundTo, roundHalfEven, listMean]
  · norm_num [claimFinalScore, componentsList, roundingComponents, listMean]

/-- Claim C4, amended: for every set of four risk components, the final risk
score equals — after the 2-decimal rounding the source applies — the sum of
`score * weight * confidence` divided by the sum of `weight * confidence`
when that denominator is positive, and the rounded simple mean of the scores
otherwise. -/
theorem weighted_risk_score_formula (rc : RiskComponents) :
    calculate_weighted_risk_score rc = round2 (claimFinalScore rc) :=
  calculate_weighted_eq_claim rc

/-- Claim C5, counterexample: with exactly one genuine component (scoring 0),
the claim's formula gives the neutral 0.5 (mean 0 is not positive), but the
code keeps its initial consensus value 0, which is strictly smaller. -/
theorem single_genuine_consensus_counterexample :
    (claimGenuineScores singleGenuineComponents).length = 1 ∧
    (analyze_agent_consensus singleGenuineComponents).overall_consensus = 0 ∧
    claimConsensus singleGenuineComponents = 0.5 ∧
    (analyze_agent_consensus singleGenuineComponents).overall_consensus <
      claimConsensus singleGenuineComponents := by
  have hg : claimGenuineScores singleGenuineComponents = [0] := rfl
  have hc : claimConsensus singleGenuineComponents = 0.5 := by
    norm_num [claimConsensus, hg, listMean]
  refine ⟨rfl, rfl, hc, ?_⟩
  rw [hc, show (analyze_agent_consensus singleGenuineComponents).overall_consensus
    = 0 from rfl]
  norm_num

/-- Claim C5, amended: when at least two component scores come from genuinely
successful units, the overall consensus equals `max(0, 1 - variance/mean^2)`
for positive mean and the neutral 0.5 otherwise, and the score range is
recorded as strong consensus below 20 points, moderate consensus below 40,
and a conflict otherwise; with fewer than two genuine scores the consensus is
the initial value 0 and no band is recorded. -/
theorem analyze_agent_consensus_amended (rc : RiskComponents) :
    ((claimGenuineScores rc).length < 2 →
      (analyze_agent_consensus rc).overall_consensus = 0) ∧
    (2 ≤ (claimGenuineScores rc).length →
      (analyze_agent_consensus rc).overall_consensus = claimConsensus rc ∧
      (((analyze_agent_consensus rc).agreements,
        (analyze_agent_consensus rc).conflicts) =
        (let r := listMax (claimGenuineScores rc) - listMin (claimGenuineScores rc)
         if r < 20 then ([ConsensusMsg.strong r], [])
         else if r < 40 then ([ConsensusMsg.moderate r], [])
         else ([], [ConsensusMsg.disagreement r])))) := by
  refine ⟨overall_consensus_lt2 rc, fun h2 => ⟨?_, consensus_bands rc h2⟩⟩
  rw [overall_consensus_ge2 rc h2]
  rfl

/-- Claim C5, witness: with two genuine components scoring 50 and 40 the
consensus equals the claim's formula. -/
theorem analyze_agent_consensus_amended_witness :
    (analyze_agent_consensus twoGenuineComponents).overall_consensus =
      claimConsensus twoGenuineComponents :=
  ((analyze_agent_consensus_amended twoGenuineComponents).2
    (by rw [show (claimGenuineScores twoGenuineComponents).length = 2 from rfl])).1

/-- Claim C6, counterexample: four genuine components all scoring S = 0 with
confidence 1 give final score 0 = S as claimed, but the consensus is the
neutral 0.5 rather than the claimed 1.0, because the mean score 0 is not
positive. -/
theorem zero_score_consensus_counterexample :
    calculate_weighted_risk_score zeroScoreComponents = 0 ∧
    (analyze_agent_consensus zeroScoreComponents).overall_consensus = 0.5 ∧
    (analyze_agent_consensus zeroScoreComponents).overall_consensus < 1 := by
  have hcons : (analyze_agent_consensus zeroScoreComponents).overall_consensus = 0.5 := by
    have hall : ∀ x ∈ claimGenuineScores zeroScoreComponents, x = 0 :=
      uniform_genuine_all_eq 0 1 "protocol_analyst" "market_intelligence"
        "data_hunter" "protocol_analyst_governance"
    have h2 : 2 ≤ (claimGenuineScores zeroScoreComponents).length := by
      rw [show (claimGenuineScores zeroScoreComponents).length = 4 from rfl]
      norm_num
    have hne : claimGenuineScores zeroScoreComponents ≠ [] := by
      intro h
      rw [h] at h2
      simp at h2
    rw [overall_consensus_ge2 _ h2, listMean_of_all_eq hall hne]
    norm_num
  refine ⟨?_, hcons, by rw [hcons]; norm_num⟩
  rw [show zeroScoreComponents = uniformComponents 0 1 "protocol_analyst"
      "market_intelligence" "data_hunter" "protocol_analyst_governance" from rfl,
    calculate_weighted_eq_claim, claimFinalScore_uniform 0 1 (by norm_num)]
  norm_num [round2, roundTo, roundHalfEven]

/-- Claim C6, amended: for four components carrying one identical score
S > 0 at one common positive confidence, of which at least two come from
genuinely successful units, the final risk score is S (up to the 2-decimal
rounding) and the overall consensus is 1.0; at S = 0 the consensus is the
neutral 0.5 instead. -/
theorem identical_scores_amended (S c : ℚ) (s1 s2 s3 s4 : String)
    (hS : 0 < S) (hc : 0 < c)
    (hgen : 2 ≤ (claimGenuineScores (uniformComponents S c s1 s2 s3 s4)).length) :
    calculate_weighted_risk_score (uniformComponents S c s1 s2 s3 s4) = round2 S ∧
    (analyze_agent_consensus (uniformComponents S c s1 s2 s3 s4)).overall_consensus
      = 1 := by
  constructor
  · rw [calculate_weighted_eq_claim, claimFinalScore_uniform S c hc]
  · have hall := uniform_genuine_all_eq S c s1 s2 s3 s4
    have hne : claimGenuineScores (uniformComponents S c s1 s2 s3 s4) ≠ [] := by
      intro h
      rw [h] at hgen
      simp at hgen
    rw [overall_consensus_ge2 _ hgen, listMean_of_all_eq hall hne,
      listVariance_of_all_eq hall, if_pos hS]
    norm_num

/-- Claim C6, witness: four genuine components at score 50 and confidence 1
give final score 50 and consensus 1. -/
theorem identical_scores_amended_witness :
    calculate_weighted_risk_score (uniformComponents 50 1 "protocol_analyst"
      "market_intelligence" "data_hunter" "protocol_analyst_governance") =
      round2 50 ∧
    (analyze_agent_consensus (uniformComponents 50 1 "protocol_analyst"
      "market_intelligence" "data_hunter"
      "protocol_analyst_governance")).overall_consensus = 1 :=
  identical_scores_amended 50 1 "protocol_analyst" "market_intelligence"
    "data_hunter" "protocol_analyst_governance" (by norm_num) (by norm_num)
    (by rw [show (claimGenuineScores (uniformComponents 50 1 "protocol_analyst"
        "market_intelligence" "data_hunter"
        "protocol_analyst_governance")).length = 4 from rfl]
        norm_num)

/-- Claim C7: the execute wrapper always returns an `AgentResult`: a timeout
yields a failed result recording the timeout in its errors list, and an
internal fault raised on every attempt is retried for 3 attempts with
exponentially doubling backoff delays (1s then 2s) and then converted into a
failed result carrying the error — it is never re-raised to the scheduler. -/
theorem execute_error_handling {δ : Type} (agent_id : String) (empty : δ)
    (f : ℕ → AttemptOutcome δ) (e : String) (hf : ∀ n, f n = .fault e) :
    ((execute agent_id empty AnalyzeBehavior.timesOut).1.success = false ∧
      timeoutErrorMsg agent_id ∈
        (execute agent_id empty AnalyzeBehavior.timesOut).1.errors) ∧
    ((execute agent_id empty (AnalyzeBehavior.attempts f)).1.success = false ∧
      failureErrorMsg agent_id e ∈
        (execute agent_id empty (AnalyzeBehavior.attempts f)).1.errors ∧
      (execute agent_id empty (AnalyzeBehavior.attempts f)).2 = [1, 2]) := by
  have hw := execute_with_timeout_fault f e hf
  refine ⟨⟨rfl, by simp [execute]⟩, ?_⟩
  simp [execute, hw]

/-- Claim C7, witness: a concrete agent whose every attempt raises. -/
theorem execute_error_handling_witness :
    ((execute "data_hunter" () AnalyzeBehavior.timesOut).1.success = false ∧
      timeoutErrorMsg "data_hunter" ∈
        (execute "data_hunter" () AnalyzeBehavior.timesOut).1.errors) ∧
    ((execute "data_hunter" ()
        (AnalyzeBehavior.attempts fun _ => AttemptOutcome.fault "boom")).1.success
        = false ∧
      failureErrorMsg "data_hunter" "boom" ∈
        (execute "data_hunter" ()
          (AnalyzeBehavior.attempts fun _ => AttemptOutcome.fault "boom")).1.errors ∧
      (execute "data_hunter" ()
        (AnalyzeBehavior.attempts fun _ => AttemptOutcome.fault "boom")).2 = [1, 2]) :=
  execute_error_handling "data_hunter" () (fun _ => AttemptOutcome.fault "boom")
    "boom" (fun _ => rfl)

/-- Claim C8: every failure path of `assess_protocol_risk` — unsupported
protocol, workflow exception, and the compiler itself on every input — ends
in a raised validation error rather than the claimed CRITICAL stand-in
assessment, because the error assessment's `ComponentRiskScore` construction
omits the required `financial` and `social` fields. -/
theorem assess_protocol_risk_raises (protocol_name session_id e : String)
    (results : List (String × OrchResult))
    (workflow : Except String RiskAssessment) :
    compile_final_assessment protocol_name session_id results =
      Except.error "ValidationError: ComponentRiskScore missing required fields" ∧
    assess_protocol_risk protocol_name session_id none false workflow =
      Except.error "ValidationError: ComponentRiskScore missing required fields" ∧
    assess_protocol_risk protocol_name session_id none true (.error e) =
      Except.error "ValidationError: ComponentRiskScore missing required fields" :=
  ⟨rfl, rfl, rfl⟩

/-- Claim C9: the component-scoring step always produces all four components
in their fixed order, and for each component whose source unit failed it
substitutes a conservative default score in [60, 75] with confidence at most
0.3, marked with a default source, never omitting the component. -/
theorem conservative_default_components (ar : AgentResults) :
    ((componentsList (calculate_risk_components ar)).map Prod.fst =
      ["security_risk", "financial_risk", "technical_risk", "governance_risk"]) ∧
    (ar.protocol_analyst.success = false →
      (calculate_risk_components ar).security_risk.source = "default_conservative" ∧
      60 ≤ (calculate_risk_components ar).security_risk.score ∧
      (calculate_risk_components ar).security_risk.score ≤ 75 ∧
      (calculate_risk_components ar).security_risk.confidence ≤ 0.3) ∧
    (ar.market_intelligence.success = false →
      (calculate_risk_components ar).financial_risk.source = "default_moderate" ∧
      60 ≤ (calculate_risk_components ar).financial_risk.score ∧
      (calculate_risk_components ar).financial_risk.score ≤ 75 ∧
      (calculate_risk_components ar).financial_risk.confidence ≤ 0.3) ∧
    (ar.data_hunter.success = false →
      (calculate_risk_components ar).technical_risk.source = "default_high" ∧
      60 ≤ (calculate_risk_components ar).technical_risk.score ∧
      (calculate_risk_components ar).technical_risk.score ≤ 75 ∧
      (calculate_risk_components ar).technical_risk.confidence ≤ 0.3) ∧
    (ar.protocol_analyst.success = false →
      (calculate_risk_components ar).governance_risk.source = "default_moderate_high" ∧
      60 ≤ (calculate_risk_components ar).governance_risk.score ∧
      (calculate_risk_components ar).governance_risk.score ≤ 75 ∧
      (calculate_risk_components ar).governance_risk.confidence ≤ 0.3) := by
  refine ⟨rfl, fun h => ?_, fun h => ?_, fun h => ?_, fun h => ?_⟩ <;>
    simp [calculate_risk_components, calculate_security_risk, calculate_financial_risk,
      calculate_technical_risk, calculate_governance_risk, addComponentMeta, h] <;>
    norm_num

/-- Claim C9, witness: with every unit failed, all four components carry
their default sources. -/
theorem conservative_default_components_witness :
    (calculate_risk_components allFailedResults).security_risk.source =
      "default_conservative" ∧
    (calculate_risk_components allFailedResults).financial_risk.source =
      "default_moderate" ∧
    (calculate_risk_components allFailedResults).technical_risk.source =
      "default_high" ∧
    (calculate_risk_components allFailedResults).governance_risk.source =
      "default_moderate_high" := by
  have h := conservative_default_components allFailedResults
  exact ⟨(h.2.1 rfl).1, (h.2.2.1 rfl).1, (h.2.2.2.1 rfl).1, (h.2.2.2.2 rfl).1⟩

/-- Claim C10: starting from a memory holding at most 100 historical
assessments, any `update_agent_memory` call leaves at most 100, and the kept
history is exactly the suffix — the most recently appended entries — of the
history with the update's assessment (if any) appended. -/
theorem update_agent_memory_bounded (memory : AgentMemory)
    (memory_update : MemoryUpdate)
    (hm : memory.historical_assessments.length ≤ 100) :
    (update_agent_memory memory memory_update).historical_assessments.length ≤ 100 ∧
    (update_agent_memory memory memory_update).historical_assessments =
      (memory.historical_assessments ++ memory_update.assessment.toList).drop
        ((memory.historical_assessments ++
          memory_update.assessment.toList).length - 100) := by
  rcases ha : memory_update.assessment with _ | a
  · simp only [update_agent_memory, ha, Option.toList, List.append_nil]
    refine ⟨hm, ?_⟩
    rw [Nat.sub_eq_zero_of_le hm, List.drop_zero]
  · simp only [update_agent_memory, ha, Option.toList]
    split_ifs with h
    · refine ⟨?_, rfl⟩
      simp only [List.length_drop]
      omega
    · have hle : (memory.historical_assessments ++ [a]).length ≤ 100 :=
        Nat.not_lt.1 h
      refine ⟨hle, ?_⟩
      rw [Nat.sub_eq_zero_of_le hle, List.drop_zero]

/-- Claim C10, witness: appending an assessment to a memory already holding
100 entries keeps the length at 100 and the newest suffix. -/
theorem update_agent_memory_bounded_witness :
    (update_agent_memory memoryAtBound
      updateWithAssessment).historical_assessments.length ≤ 100 ∧
    (update_agent_memory memoryAtBound
      updateWithAssessment).historical_assessments =
      (memoryAtBound.historical_assessments ++
        updateWithAssessment.assessment.toList).drop
        ((memoryAtBound.historical_assessments ++
          updateWithAssessment.assessment.toList).length - 100) :=
  update_agent_memory_bounded memoryAtBound updateWithAssessment
    (by simp [memoryAtBound])

end ChainGuard
